import Mathlib

-- Verification of the OpenClaw Lite decision engine: complexity scoring
-- (ComplexityAnalyzer), provider selection with fallback (QueryRouter),
-- message-format adaptation (ClaudeProvider) and cost/budget accounting
-- (CostTracker).  Python floats are modelled as rationals; Python's raising
-- float division is modelled as a fallible operation; the wall clock
-- (datetime.now month) is passed as an explicit parameter.

namespace OpenClawLite

-- A chat message, `{"role": ..., "content": ...}`.  Roles are open strings,
-- as in the source, where `msg.get("role", "user")` may yield any string.
structure Message where
  role : String
  content : String
deriving DecidableEq

-- ---------------------------------------------------------------------------
-- ComplexityAnalyzer (src/app/src/router.py, lines 17-46)
-- ---------------------------------------------------------------------------

-- The regex dialect actually used by COMPLEX_PATTERNS: case-insensitive
-- literals, `\s+`, the character class `[- ]`, and the `\b` word boundary
-- at either end.  Patterns are embedded as data and matched directly.
inductive PatElem where
  | lit (s : List Char)
  | ws
  | dashOrSpace
deriving DecidableEq

structure Pattern where
  leftB : Bool
  elems : List PatElem
  rightB : Bool

-- `\w` for the ASCII texts at hand: letters, digits, underscore.
def isWordChar (c : Char) : Bool := c.isAlphanum || c = '_'

-- Case-insensitive literal match; the stored pattern is lowercase.
def litMatch : List Char → List Char → Option (List Char)
  | [], cs => some cs
  | _ :: _, [] => none
  | p :: ps, c :: cs => if c.toLower = p then litMatch ps cs else none

def skipWs : List Char → List Char
  | [] => []
  | c :: cs => if c.isWhitespace then skipWs cs else c :: cs

def elemsMatch : List PatElem → List Char → Option (List Char)
  | [], cs => some cs
  | .lit s :: rest, cs =>
    match litMatch s cs with
    | some cs2 => elemsMatch rest cs2
    | none => none
  | .ws :: _, [] => none
  | .ws :: rest, c :: cs =>
    if c.isWhitespace then elemsMatch rest (skipWs cs) else none
  | .dashOrSpace :: _, [] => none
  | .dashOrSpace :: rest, c :: cs =>
    if c = '-' || c = ' ' then elemsMatch rest cs else none

-- Does the pattern match starting here?  `prevOk` says the previous
-- character (if any) is not a word character, which is what `\b` demands
-- given that every bounded pattern starts and ends with a word character.
def matchAtB (p : Pattern) (prevOk : Bool) (cs : List Char) : Bool :=
  (!p.leftB || prevOk) &&
    match elemsMatch p.elems cs with
    | some rest =>
      !p.rightB ||
        (match rest with
         | [] => true
         | c :: _ => !isWordChar c)
    | none => false

def searchAux (p : Pattern) (prevOk : Bool) : List Char → Bool
  | [] => matchAtB p prevOk []
  | c :: cs => matchAtB p prevOk (c :: cs) || searchAux p (!isWordChar c) cs

def patMatches (p : Pattern) (text : List Char) : Bool := searchAux p true text

def bword (s : String) : Pattern := ⟨true, [.lit s.toList], true⟩

-- COMPLEX_PATTERNS, in source order.
def COMPLEX_PATTERNS : List Pattern := [
  bword "analyze",
  bword "evaluate",
  ⟨true, [.lit "step".toList, .dashOrSpace, .lit "by".toList, .dashOrSpace, .lit "step".toList], true⟩,
  ⟨true, [.lit "explain".toList, .ws, .lit "in".toList, .ws, .lit "detail".toList], true⟩,
  bword "compare",
  bword "contrast",
  bword "why",
  ⟨true, [.lit "how".toList, .ws, .lit "does".toList], true⟩,
  bword "implement",
  bword "debug",
  ⟨false, [.lit "```".toList], false⟩,
  bword "code",
  bword "function",
  bword "class",
  bword "algorithm"]

-- `" ".join(m.get("content", "") for m in messages)`
def joinContents (messages : List Message) : String :=
  String.intercalate " " (messages.map (·.content))

-- `len(text.split())`: number of maximal runs of non-whitespace characters.
def countWordsAux : Bool → List Char → Nat
  | _, [] => 0
  | inWord, c :: cs =>
    if c.isWhitespace then countWordsAux false cs
    else (if inWord then 0 else 1) + countWordsAux true cs

def countWords (text : List Char) : Nat := countWordsAux false text

-- `sum(1 for p in self._patterns if p.search(text))`
def countMatches (text : List Char) : Nat :=
  COMPLEX_PATTERNS.countP (fun p => patMatches p text)

-- `min(words / 200, 1.0) * 0.4`
def length_score (words : Nat) : ℚ := min ((words : ℚ) / 200) 1 * 0.4

-- `min(matches / 5, 1.0) * 0.6`
def pattern_score (nMatch : Nat) : ℚ := min ((nMatch : ℚ) / 5) 1 * 0.6

-- `ComplexityAnalyzer.score`
def score (messages : List Message) : ℚ :=
  let text := (joinContents messages).toList
  length_score (countWords text) + pattern_score (countMatches text)

-- `ComplexityAnalyzer.is_complex`: `score(messages) >= threshold`
def is_complex (threshold : ℚ) (messages : List Message) : Bool :=
  decide (threshold ≤ score messages)

-- `score` viewed as a function of word count and distinct-pattern-match
-- count, the two quantities it actually depends on.
def score_of (words nMatch : Nat) : ℚ := length_score words + pattern_score nMatch

theorem score_eq_score_of (messages : List Message) :
    score messages = score_of (countWords (joinContents messages).toList)
      (countMatches (joinContents messages).toList) := rfl

-- ---------------------------------------------------------------------------
-- CostTracker (src/app/src/cost_tracker.py)
-- ---------------------------------------------------------------------------

structure Pricing where
  input : ℚ
  output : ℚ
deriving DecidableEq

-- Pricing per 1M tokens.
def PRICING : List (String × Pricing) := [
  ("gpt-4o-mini", ⟨0.15, 0.60⟩),
  ("gpt-4o", ⟨2.50, 10.00⟩),
  ("claude-sonnet-4-20250514", ⟨3.00, 15.00⟩),
  ("claude-opus-4-20250514", ⟨15.00, 75.00⟩)]

-- `PRICING.get(model, {"input": 1.0, "output": 1.0})`
def pricingFor (model : String) : Pricing :=
  match PRICING.lookup model with
  | some p => p
  | none => ⟨1.0, 1.0⟩

-- Python exceptions that the accounting code can raise.
inductive PyError where
  | keyError (key : String)
  | zeroDivisionError
deriving DecidableEq

-- CPython float division raises ZeroDivisionError on a zero divisor.
def pydiv (a b : ℚ) : Except PyError ℚ :=
  if b = 0 then .error .zeroDivisionError else .ok (a / b)

-- `round(x, ndigits)` (modelled with round-half-up at the exact rational;
-- no claim below depends on tie behaviour).
def pyRound (x : ℚ) (ndigits : Nat) : ℚ :=
  (round (x * (10 : ℚ) ^ ndigits) : ℤ) / (10 : ℚ) ^ ndigits

-- The tracker's mutable fields: `monthly_budget`, `_current_month`,
-- `_monthly_costs`, `_monthly_tokens` (fixed keys "openai"/"claude"),
-- `_total_requests`.  The structure holds exactly one month's ledger.
structure TrackerState where
  monthlyBudget : ℚ
  currentMonth : String
  openaiCost : ℚ
  claudeCost : ℚ
  openaiInput : Nat
  openaiOutput : Nat
  claudeInput : Nat
  claudeOutput : Nat
  totalRequests : Nat
deriving DecidableEq

-- `CostTracker.__init__(monthly_budget_usd=50.0)`, with the construction
-- month passed in for `self._get_month()`.
def initTracker (monthlyBudgetUsd : ℚ) (month : String) : TrackerState :=
  ⟨monthlyBudgetUsd, month, 0, 0, 0, 0, 0, 0, 0⟩

-- The `then` branch of `_check_month_rollover`: reset every monthly
-- counter and store the new month; lifetime `_total_requests` untouched.
def resetMonthly (now : String) (st : TrackerState) : TrackerState :=
  { st with currentMonth := now, openaiCost := 0, claudeCost := 0,
            openaiInput := 0, openaiOutput := 0, claudeInput := 0, claudeOutput := 0 }

-- `CostTracker._check_month_rollover`, with `now` standing for
-- `self._get_month()` at call time.
def checkMonthRollover (now : String) (st : TrackerState) : TrackerState :=
  if now ≠ st.currentMonth then resetMonthly now st else st

-- The `cost = ...` computation in `CostTracker.track`.
def costOf (model : String) (inputTokens outputTokens : Nat) : ℚ :=
  let pricing := pricingFor model
  (inputTokens : ℚ) / 1000000 * pricing.input +
    (outputTokens : ℚ) / 1000000 * pricing.output

structure TrackSummary where
  cost_usd : ℚ
  monthly_total_usd : ℚ
  budget_remaining_usd : ℚ
  budget_utilization_pct : ℚ
deriving DecidableEq

-- The summary dict returned by `track`; building it divides by
-- `self.monthly_budget` and therefore can raise.
def mkSummary (cost : ℚ) (st : TrackerState) : Except PyError TrackSummary :=
  let total := st.openaiCost + st.claudeCost
  match pydiv total st.monthlyBudget with
  | .error e => .error e
  | .ok q => .ok
      { cost_usd := pyRound cost 6,
        monthly_total_usd := pyRound total 4,
        budget_remaining_usd := pyRound (st.monthlyBudget - total) 4,
        budget_utilization_pct := pyRound (q * 100) 2 }

-- `CostTracker.track`.  Returns the result together with the state as
-- mutated by the call: a KeyError aborts before any counter update but
-- after the rollover check; a ZeroDivisionError in the summary happens
-- after every counter update.
def track (now provider model : String) (inputTokens outputTokens : Nat)
    (st : TrackerState) : Except PyError TrackSummary × TrackerState :=
  let st1 := checkMonthRollover now st
  let cost := costOf model inputTokens outputTokens
  if provider = "openai" then
    let st2 := { st1 with openaiCost := st1.openaiCost + cost,
                          openaiInput := st1.openaiInput + inputTokens,
                          openaiOutput := st1.openaiOutput + outputTokens,
                          totalRequests := st1.totalRequests + 1 }
    (mkSummary cost st2, st2)
  else if provider = "claude" then
    let st2 := { st1 with claudeCost := st1.claudeCost + cost,
                          claudeInput := st1.claudeInput + inputTokens,
                          claudeOutput := st1.claudeOutput + outputTokens,
                          totalRequests := st1.totalRequests + 1 }
    (mkSummary cost st2, st2)
  else
    (.error (.keyError provider), st1)

-- `CostTracker.is_budget_exceeded`: `total >= self.monthly_budget`.
-- No division occurs, so the result is always defined.
def is_budget_exceeded (now : String) (st : TrackerState) : Bool × TrackerState :=
  let st1 := checkMonthRollover now st
  (decide (st1.monthlyBudget ≤ st1.openaiCost + st1.claudeCost), st1)

structure ProviderCostStats where
  cost_usd : ℚ
  input_tokens : Nat
  output_tokens : Nat
deriving DecidableEq

structure CostStats where
  month : String
  monthly_budget_usd : ℚ
  total_cost_usd : ℚ
  budget_remaining_usd : ℚ
  budget_utilization_pct : ℚ
  openaiStats : ProviderCostStats
  claudeStats : ProviderCostStats
  total_requests : Nat
deriving DecidableEq

-- `CostTracker.get_stats`.
def get_stats (now : String) (st : TrackerState) : Except PyError CostStats × TrackerState :=
  let st1 := checkMonthRollover now st
  let total := st1.openaiCost + st1.claudeCost
  (match pydiv total st1.monthlyBudget with
   | .error e => .error e
   | .ok q => .ok
       { month := st1.currentMonth,
         monthly_budget_usd := st1.monthlyBudget,
         total_cost_usd := pyRound total 4,
         budget_remaining_usd := pyRound (st1.monthlyBudget - total) 4,
         budget_utilization_pct := pyRound (q * 100) 2,
         openaiStats := ⟨pyRound st1.openaiCost 4, st1.openaiInput, st1.openaiOutput⟩,
         claudeStats := ⟨pyRound st1.claudeCost 4, st1.claudeInput, st1.claudeOutput⟩,
         total_requests := st1.totalRequests }, st1)

-- ---------------------------------------------------------------------------
-- Providers (src/app/src/providers.py)
-- ---------------------------------------------------------------------------

structure Usage where
  prompt_tokens : Nat
  completion_tokens : Nat
  total_tokens : Nat
deriving DecidableEq

structure ProviderResponse where
  id : String
  model : String
  content : String
  provider : String
  usage : Usage
deriving DecidableEq

-- The opaque backend API reply (the fields the wrappers read from the
-- OpenAI / Anthropic SDK response objects).
structure ApiResult where
  id : String
  model : String
  content : String
  input_tokens : Nat
  output_tokens : Nat
  total_tokens : Nat
deriving DecidableEq

-- Python truthiness of an optional string: None and "" are falsy.
def strTruthy : Option String → Bool
  | none => false
  | some s => !s.isEmpty

-- The system-message accumulation in `ClaudeProvider._convert_messages`:
-- `system_message = content if not system_message else f"{system_message}\n\n{content}"`
def accSystem (sys : Option String) (content : String) : Option String :=
  if strTruthy sys then some ((sys.getD "") ++ "\n\n" ++ content) else some content

-- The `for msg in messages` loop of `_convert_messages`: system messages
-- are folded into `system_message`, every other role becomes a literal
-- "assistant" or "user" turn.
def hoistSystem (sys : Option String) : List Message → Option String × List Message
  | [] => (sys, [])
  | m :: rest =>
    if m.role = "system" then
      hoistSystem (accSystem sys m.content) rest
    else
      ((hoistSystem sys rest).1,
        ⟨if m.role = "assistant" then "assistant" else "user", m.content⟩
          :: (hoistSystem sys rest).2)

-- `if converted and converted[0]["role"] == "assistant": insert user "Continue."`
def ensureUserFirst : List Message → List Message
  | [] => []
  | m :: rest =>
    if m.role = "assistant" then ⟨"user", "Continue."⟩ :: m :: rest else m :: rest

-- The `merged` loop: fuse runs of equal-role turns, joining contents
-- with a blank line.
def mergeConsecutive : List Message → List Message
  | [] => []
  | [m] => [m]
  | m1 :: m2 :: rest =>
    if m1.role = m2.role then
      mergeConsecutive (⟨m1.role, m1.content ++ "\n\n" ++ m2.content⟩ :: rest)
    else
      m1 :: mergeConsecutive (m2 :: rest)
termination_by l => l.length

-- `ClaudeProvider._convert_messages`
def convert_messages (messages : List Message) : Option String × List Message :=
  ((hoistSystem none messages).1,
    mergeConsecutive (ensureUserFirst (hoistSystem none messages).2))

-- The two capability objects plus the ambient world as route() sees it:
-- availability flags (`client is not None`), the opaque API calls, the
-- configured Claude model name, the uuid drawn for the Claude reply id,
-- and the current UTC month.
structure Env where
  openaiAvailable : Bool
  claudeAvailable : Bool
  openaiApi : List Message → Except String ApiResult
  claudeApi : Option String → List Message → Except String ApiResult
  claudeModel : String
  uuidHex : String
  month : String

-- `OpenAIProvider.generate`
def openaiGenerate (env : Env) (messages : List Message) : Except String ProviderResponse :=
  if !env.openaiAvailable then .error "OpenAI API key not configured"
  else
    match env.openaiApi messages with
    | .error e => .error e
    | .ok r => .ok
        { id := r.id, model := r.model, content := r.content, provider := "openai",
          usage := ⟨r.input_tokens, r.output_tokens, r.total_tokens⟩ }

-- `ClaudeProvider.generate`
def claudeGenerate (env : Env) (messages : List Message) : Except String ProviderResponse :=
  if !env.claudeAvailable then .error "Anthropic API key not configured"
  else
    let sys := (convert_messages messages).1
    let converted0 := (convert_messages messages).2
    let converted := if converted0.isEmpty then [⟨"user", "Hello"⟩] else converted0
    let sysArg := if strTruthy sys then sys else none
    match env.claudeApi sysArg converted with
    | .error e => .error e
    | .ok r => .ok
        { id := "chatcmpl-" ++ env.uuidHex, model := env.claudeModel,
          content := r.content, provider := "claude",
          usage := ⟨r.input_tokens, r.output_tokens, r.input_tokens + r.output_tokens⟩ }

-- ---------------------------------------------------------------------------
-- QueryRouter (src/app/src/router.py, lines 49-136)
-- ---------------------------------------------------------------------------

inductive Backend where
  | openai
  | claude
deriving DecidableEq

inductive RouteSelection where
  | primary (b : Backend) (fb : Option Backend)
  | noProvider
deriving DecidableEq

-- The `if`/`elif` chain of `QueryRouter.route` that picks primary and
-- fallback.
def selectBackend (isComplexQ openaiAvail claudeAvail : Bool) : RouteSelection :=
  if isComplexQ && claudeAvail then
    .primary .claude (if openaiAvail then some .openai else none)
  else if openaiAvail then
    .primary .openai (if claudeAvail then some .claude else none)
  else if claudeAvail then
    .primary .claude none
  else
    .noProvider

inductive RouteError where
  | noProviderAvailable
  | providerError (msg : String)
  | trackingError (e : PyError)
deriving DecidableEq

structure RouterState where
  openaiCount : Nat
  claudeCount : Nat
  tracker : TrackerState
deriving DecidableEq

def generateOn (env : Env) (b : Backend) (messages : List Message) :
    Except String ProviderResponse :=
  match b with
  | .openai => openaiGenerate env messages
  | .claude => claudeGenerate env messages

-- `if primary == self.claude: self.claude_count += 1 else: self.openai_count += 1`
def bumpCount (b : Backend) (st : RouterState) : RouterState :=
  match b with
  | .claude => { st with claudeCount := st.claudeCount + 1 }
  | .openai => { st with openaiCount := st.openaiCount + 1 }

-- The tail of a successful generate inside `route`: bump the chosen
-- backend's counter, then `self.cost_tracker.track(...)` on the response.
def afterGenerate (env : Env) (b : Backend) (resp : ProviderResponse)
    (st : RouterState) : Except RouteError ProviderResponse × RouterState :=
  let st1 := bumpCount b st
  let (res, tst) := track env.month resp.provider resp.model
      resp.usage.prompt_tokens resp.usage.completion_tokens st1.tracker
  let st2 := { st1 with tracker := tst }
  match res with
  | .ok _ => (.ok resp, st2)
  | .error e => (.error (.trackingError e), st2)

-- `QueryRouter.route`, as a function of the environment, the configured
-- complexity threshold, the conversation and the mutable state.
def route (env : Env) (threshold : ℚ) (messages : List Message)
    (st : RouterState) : Except RouteError ProviderResponse × RouterState :=
  match selectBackend (is_complex threshold messages)
      env.openaiAvailable env.claudeAvailable with
  | .noProvider => (.error .noProviderAvailable, st)
  | .primary p fb =>
    match generateOn env p messages with
    | .ok resp => afterGenerate env p resp st
    | .error e =>
      match fb with
      | none => (.error (.providerError e), st)
      | some f =>
        match generateOn env f messages with
        | .ok resp => afterGenerate env f resp st
        | .error e2 => (.error (.providerError e2), st)

structure RouterStats where
  total_requests : Nat
  openai_requests : Nat
  claude_requests : Nat
  openai_percentage : ℚ
  claude_percentage : ℚ
  cost : CostStats
deriving DecidableEq

-- `QueryRouter.get_stats`; the percentage expressions guard their
-- division with `if total`, the tracker snapshot can still raise.
def router_get_stats (now : String) (st : RouterState) :
    Except PyError RouterStats × RouterState :=
  let total := st.openaiCount + st.claudeCount
  let (cres, tst) := get_stats now st.tracker
  let st1 := { st with tracker := tst }
  (match cres with
   | .error e => .error e
   | .ok cs => .ok
       { total_requests := total,
         openai_requests := st.openaiCount,
         claude_requests := st.claudeCount,
         openai_percentage :=
           if total ≠ 0 then pyRound ((st.openaiCount : ℚ) / total * 100) 2 else 0,
         claude_percentage :=
           if total ≠ 0 then pyRound ((st.claudeCount : ℚ) / total * 100) 2 else 0,
         cost := cs }, st1)

-- ---------------------------------------------------------------------------
-- Facts about the two scoring factors (helper lemmas)
-- ---------------------------------------------------------------------------

theorem length_score_nonneg (w : Nat) : 0 ≤ length_score w := by
  unfold length_score
  exact mul_nonneg (le_min (by positivity) (by norm_num)) (by norm_num)

theorem length_score_le (w : Nat) : length_score w ≤ 0.4 := by
  unfold length_score
  calc min ((w : ℚ) / 200) 1 * 0.4 ≤ 1 * 0.4 :=
        mul_le_mul_of_nonneg_right (min_le_right _ _) (by norm_num)
    _ = 0.4 := by norm_num

theorem pattern_score_nonneg (n : Nat) : 0 ≤ pattern_score n := by
  unfold pattern_score
  exact mul_nonneg (le_min (by positivity) (by norm_num)) (by norm_num)

theorem pattern_score_le (n : Nat) : pattern_score n ≤ 0.6 := by
  unfold pattern_score
  calc min ((n : ℚ) / 5) 1 * 0.6 ≤ 1 * 0.6 :=
        mul_le_mul_of_nonneg_right (min_le_right _ _) (by norm_num)
    _ = 0.6 := by norm_num

theorem length_score_mono {w w' : Nat} (h : w ≤ w') :
    length_score w ≤ length_score w' := by
  unfold length_score
  have hc : (w : ℚ) ≤ (w' : ℚ) := by exact_mod_cast h
  have hd : (w : ℚ) / 200 ≤ (w' : ℚ) / 200 := by linarith
  exact mul_le_mul_of_nonneg_right (min_le_min hd le_rfl) (by norm_num)

theorem pattern_score_mono {n n' : Nat} (h : n ≤ n') :
    pattern_score n ≤ pattern_score n' := by
  unfold pattern_score
  have hc : (n : ℚ) ≤ (n' : ℚ) := by exact_mod_cast h
  have hd : (n : ℚ) / 5 ≤ (n' : ℚ) / 5 := by linarith
  exact mul_le_mul_of_nonneg_right (min_le_min hd le_rfl) (by norm_num)

-- ---------------------------------------------------------------------------
-- Claim C6
-- ---------------------------------------------------------------------------

/-- Claim C6: for every conversation (including the empty one), the
complexity score lies in the closed interval [0,1]; it is exactly the sum
of the length factor and the pattern factor, which are bounded by 0.4 and
0.6 respectively, with no further clamping applied. -/
theorem score_in_unit_interval (messages : List Message) :
    (0 ≤ score messages ∧ score messages ≤ 1) ∧
    score messages =
      length_score (countWords (joinContents messages).toList) +
        pattern_score (countMatches (joinContents messages).toList) ∧
    (∀ w, 0 ≤ length_score w ∧ length_score w ≤ 0.4) ∧
    (∀ n, 0 ≤ pattern_score n ∧ pattern_score n ≤ 0.6) := by
  refine ⟨⟨?_, ?_⟩, rfl, fun w => ⟨length_score_nonneg w, length_score_le w⟩,
    fun n => ⟨pattern_score_nonneg n, pattern_score_le n⟩⟩
  · exact add_nonneg (length_score_nonneg _) (pattern_score_nonneg _)
  · have h1 := length_score_le (countWords (joinContents messages).toList)
    have h2 := pattern_score_le (countMatches (joinContents messages).toList)
    have e : score messages =
        length_score (countWords (joinContents messages).toList) +
          pattern_score (countMatches (joinContents messages).toList) := rfl
    rw [e]
    have : (0.4 : ℚ) + 0.6 = 1 := by norm_num
    linarith

-- ---------------------------------------------------------------------------
-- Claim C7
-- ---------------------------------------------------------------------------

/-- Claim C7: the score is a function of the conversation's word count and
its number of distinct matching patterns, and that function is monotone
non-decreasing in the word count for fixed match count and monotone
non-decreasing in the match count for fixed word count. -/
theorem score_monotone_in_factors :
    (∀ messages : List Message, score messages =
      score_of (countWords (joinContents messages).toList)
        (countMatches (joinContents messages).toList)) ∧
    (∀ w w' n : Nat, w ≤ w' → score_of w n ≤ score_of w' n) ∧
    (∀ w n n' : Nat, n ≤ n' → score_of w n ≤ score_of w n') := by
  refine ⟨fun _ => rfl, fun w w' n h => ?_, fun w n n' h => ?_⟩
  · exact add_le_add_right (length_score_mono h) _
  · exact add_le_add_left (pattern_score_mono h) _

/-- Witness for C7 at concrete word and match counts. -/
theorem score_monotone_in_factors_witness :
    score_of 1 0 ≤ score_of 3 0 ∧ score_of 2 1 ≤ score_of 2 4 :=
  ⟨score_monotone_in_factors.2.1 1 3 0 (by decide),
   score_monotone_in_factors.2.2 2 1 4 (by decide)⟩

-- ---------------------------------------------------------------------------
-- Claim C2
-- ---------------------------------------------------------------------------

-- The spec's scenario conversation.
def tcpMessages : List Message :=
  [⟨"user", "why does TCP use a three-way handshake? implement a state diagram"⟩]

theorem tcp_word_count : countWords (joinContents tcpMessages).toList = 11 := by decide

theorem tcp_match_count : countMatches (joinContents tcpMessages).toList = 2 := by decide

theorem tcp_score : score tcpMessages = 131 / 500 := by
  rw [score_eq_score_of, tcp_word_count, tcp_match_count]
  unfold score_of length_score pattern_score
  rw [min_eq_left (by norm_num), min_eq_left (by norm_num)]
  norm_num

/-- Claim C2 is false on the code: at the spec's scenario conversation and
threshold 0.5, the score is 11/1000·2 + 0.24 = 0.262 < 0.5, so `is_complex`
returns `false`, not `true`. -/
theorem tcp_scenario_not_complex : is_complex 0.5 tcpMessages = false := by
  unfold is_complex
  rw [tcp_score, decide_eq_false_iff_not]
  norm_num

/-- Claim C2 (amended): at the spec's scenario conversation and threshold
0.5, exactly the patterns "why" and "implement" match (pattern factor
exactly 0.24), the length factor is 0.022 for the 11 words, the score is
0.262 < 0.5, so `is_complex` is false and the cheap (OpenAI) backend is
chosen as primary whenever it is available, with the powerful backend as
fallback when also available. -/
theorem tcp_scenario_routes_to_openai :
    countMatches (joinContents tcpMessages).toList = 2 ∧
    patMatches (COMPLEX_PATTERNS.getD 6 (bword "x")) (joinContents tcpMessages).toList = true ∧
    patMatches (COMPLEX_PATTERNS.getD 8 (bword "x")) (joinContents tcpMessages).toList = true ∧
    pattern_score 2 = 0.24 ∧
    length_score 11 = 0.022 ∧
    score tcpMessages = 0.262 ∧
    is_complex 0.5 tcpMessages = false ∧
    (∀ ca : Bool, selectBackend (is_complex 0.5 tcpMessages) true ca
      = .primary .openai (if ca then some .claude else none)) := by
  have hfalse : is_complex 0.5 tcpMessages = false := by
    unfold is_complex
    rw [tcp_score, decide_eq_false_iff_not]
    norm_num
  refine ⟨tcp_match_count, by decide, by decide, ?_, ?_, ?_, hfalse, fun ca => ?_⟩
  · unfold pattern_score
    rw [min_eq_left (by norm_num)]
    norm_num
  · unfold length_score
    rw [min_eq_left (by norm_num)]
    norm_num
  · rw [tcp_score]; norm_num
  · rw [hfalse]; cases ca <;> rfl

-- ---------------------------------------------------------------------------
-- Router stepping lemmas (helpers)
-- ---------------------------------------------------------------------------

theorem route_eq_primary_ok (env : Env) (threshold : ℚ)
    (messages : List Message) (st : RouterState) (p : Backend) (fb : Option Backend)
    (resp : ProviderResponse)
    (hsel : selectBackend (is_complex threshold messages) env.openaiAvailable
      env.claudeAvailable = .primary p fb)
    (hg : generateOn env p messages = .ok resp) :
    route env threshold messages st = afterGenerate env p resp st := by
  unfold route
  simp only [hsel, hg]

theorem route_eq_primary_err_no_fb (env : Env) (threshold : ℚ)
    (messages : List Message) (st : RouterState) (p : Backend) (e : String)
    (hsel : selectBackend (is_complex threshold messages) env.openaiAvailable
      env.claudeAvailable = .primary p none)
    (hg : generateOn env p messages = .error e) :
    route env threshold messages st = (.error (.providerError e), st) := by
  unfold route
  simp only [hsel, hg]

theorem route_eq_fallback_ok (env : Env) (threshold : ℚ)
    (messages : List Message) (st : RouterState) (p f : Backend) (e : String)
    (resp : ProviderResponse)
    (hsel : selectBackend (is_complex threshold messages) env.openaiAvailable
      env.claudeAvailable = .primary p (some f))
    (hg : generateOn env p messages = .error e)
    (hg2 : generateOn env f messages = .ok resp) :
    route env threshold messages st = afterGenerate env f resp st := by
  unfold route
  simp only [hsel, hg, hg2]

theorem route_eq_fallback_err (env : Env) (threshold : ℚ)
    (messages : List Message) (st : RouterState) (p f : Backend) (e e2 : String)
    (hsel : selectBackend (is_complex threshold messages) env.openaiAvailable
      env.claudeAvailable = .primary p (some f))
    (hg : generateOn env p messages = .error e)
    (hg2 : generateOn env f messages = .error e2) :
    route env threshold messages st = (.error (.providerError e2), st) := by
  unfold route
  simp only [hsel, hg, hg2]

theorem route_eq_of_sel_none (env : Env) (threshold : ℚ)
    (messages : List Message) (st : RouterState)
    (hsel : selectBackend (is_complex threshold messages) env.openaiAvailable
      env.claudeAvailable = .noProvider) :
    route env threshold messages st = (.error .noProviderAvailable, st) := by
  unfold route
  rw [hsel]

theorem afterGenerate_fst_ne_noProvider (env : Env) (b : Backend)
    (resp : ProviderResponse) (st : RouterState) :
    (afterGenerate env b resp st).1 ≠ .error .noProviderAvailable := by
  rcases htr : track env.month resp.provider resp.model resp.usage.prompt_tokens
      resp.usage.completion_tokens (bumpCount b st).tracker with ⟨res, tst⟩
  cases res <;> simp [afterGenerate, htr]

theorem route_fst_ne_noProvider_of_primary (env : Env) (threshold : ℚ)
    (messages : List Message) (st : RouterState) (p : Backend) (fb : Option Backend)
    (hsel : selectBackend (is_complex threshold messages) env.openaiAvailable
      env.claudeAvailable = .primary p fb) :
    (route env threshold messages st).1 ≠ .error .noProviderAvailable := by
  rcases hg : generateOn env p messages with e | resp
  · rcases fb with _ | f
    · rw [route_eq_primary_err_no_fb env threshold messages st p e hsel hg]
      simp
    · rcases hg2 : generateOn env f messages with e2 | resp2
      · rw [route_eq_fallback_err env threshold messages st p f e e2 hsel hg hg2]
        simp
      · rw [route_eq_fallback_ok env threshold messages st p f e resp2 hsel hg hg2]
        exact afterGenerate_fst_ne_noProvider env f resp2 st
  · rw [route_eq_primary_ok env threshold messages st p fb resp hsel hg]
    exact afterGenerate_fst_ne_noProvider env p resp st

-- ---------------------------------------------------------------------------
-- Claim C1
-- ---------------------------------------------------------------------------

/-- Claim C1: route() selects the primary backend by the strict first-match
order: complex-and-Claude-available picks Claude (with OpenAI as fallback
when available); else an available OpenAI is primary (with Claude as
fallback when available); else an available Claude is primary with no
fallback; and route() fails with the no-provider error exactly when
neither backend is available. -/
theorem route_selection_policy (env : Env) (threshold : ℚ)
    (messages : List Message) (st : RouterState) :
    (is_complex threshold messages = true ∧ env.claudeAvailable = true →
      selectBackend (is_complex threshold messages) env.openaiAvailable
          env.claudeAvailable
        = .primary .claude (if env.openaiAvailable then some .openai else none)) ∧
    (¬(is_complex threshold messages = true ∧ env.claudeAvailable = true) →
      env.openaiAvailable = true →
      selectBackend (is_complex threshold messages) env.openaiAvailable
          env.claudeAvailable
        = .primary .openai (if env.claudeAvailable then some .claude else none)) ∧
    (¬(is_complex threshold messages = true ∧ env.claudeAvailable = true) →
      env.openaiAvailable = false → env.claudeAvailable = true →
      selectBackend (is_complex threshold messages) env.openaiAvailable
          env.claudeAvailable = .primary .claude none) ∧
    ((route env threshold messages st).1 = .error .noProviderAvailable ↔
      env.openaiAvailable = false ∧ env.claudeAvailable = false) := by
  refine ⟨?_, ?_, ?_, ?_⟩
  · rintro ⟨hic, hca⟩
    simp [selectBackend, hic, hca]
  · intro hn hoa
    cases hic : is_complex threshold messages <;>
      cases hca : env.claudeAvailable <;>
      simp_all [selectBackend]
  · intro hn hoa hca
    cases hic : is_complex threshold messages
    · simp [selectBackend, hic, hoa, hca]
    · exact absurd ⟨hic, hca⟩ hn
  · cases hoa : env.openaiAvailable <;> cases hca : env.claudeAvailable
    · have hsel : selectBackend (is_complex threshold messages)
          env.openaiAvailable env.claudeAvailable = .noProvider := by
        cases hic : is_complex threshold messages <;>
          simp [selectBackend, hic, hoa, hca]
      rw [route_eq_of_sel_none env threshold messages st hsel]
      simp
    · have hsel : selectBackend (is_complex threshold messages)
          env.openaiAvailable env.claudeAvailable = .primary .claude none := by
        cases hic : is_complex threshold messages <;>
          simp [selectBackend, hic, hoa, hca]
      have hne := route_fst_ne_noProvider_of_primary env threshold messages st
        .claude none hsel
      simp [hne]
    · have hsel : selectBackend (is_complex threshold messages)
          env.openaiAvailable env.claudeAvailable = .primary .openai none := by
        cases hic : is_complex threshold messages <;>
          simp [selectBackend, hic, hoa, hca]
      have hne := route_fst_ne_noProvider_of_primary env threshold messages st
        .openai none hsel
      simp [hne]
    · rcases hic : is_complex threshold messages
      · have hsel : selectBackend (is_complex threshold messages)
            env.openaiAvailable env.claudeAvailable
            = .primary .openai (some .claude) := by
          simp [selectBackend, hic, hoa, hca]
        have hne := route_fst_ne_noProvider_of_primary env threshold messages st
          .openai (some .claude) hsel
        simp [hne]
      · have hsel : selectBackend (is_complex threshold messages)
            env.openaiAvailable env.claudeAvailable
            = .primary .claude (some .openai) := by
          simp [selectBackend, hic, hoa, hca]
        have hne := route_fst_ne_noProvider_of_primary env threshold messages st
          .claude (some .openai) hsel
        simp [hne]

-- An environment with neither backend configured, and a fresh router state.
def noEnv : Env :=
  ⟨false, false, fun _ => .error "no client", fun _ _ => .error "no client",
   "claude-sonnet-4-20250514", "deadbeef", "2025-10"⟩

def initialRouterState : RouterState := ⟨0, 0, initTracker 50 "2025-10"⟩

/-- Witness for C1: with neither backend available, route() fails with the
no-provider error. -/
theorem route_selection_policy_witness :
    (route noEnv 0.5 [] initialRouterState).1 = .error .noProviderAvailable :=
  (route_selection_policy noEnv 0.5 [] initialRouterState).2.2.2.mpr ⟨rfl, rfl⟩

-- ---------------------------------------------------------------------------
-- Message-conversion lemmas (helpers for C8)
-- ---------------------------------------------------------------------------

theorem hoistSystem_roles (msgs : List Message) : ∀ (sys : Option String),
    ∀ m ∈ (hoistSystem sys msgs).2, m.role = "user" ∨ m.role = "assistant" := by
  induction msgs with
  | nil => intro sys m hm; simp [hoistSystem] at hm
  | cons x rest ih =>
    intro sys m hm
    by_cases hs : x.role = "system"
    · rw [hoistSystem, if_pos hs] at hm
      exact ih _ m hm
    · rw [hoistSystem, if_neg hs] at hm
      rcases List.mem_cons.mp hm with hm | hm
      · subst hm
        by_cases ha : x.role = "assistant"
        · right; simp [ha]
        · left; simp [ha]
      · exact ih sys m hm

theorem mergeConsecutive_head (l : List Message) :
    ∀ m l', l = m :: l' →
      ∃ c rest, mergeConsecutive l = ⟨m.role, c⟩ :: rest := by
  induction l using mergeConsecutive.induct with
  | case1 => intro m l' h; cases h
  | case2 m0 =>
    intro m l' h
    injection h with h1 h2
    subst h1
    exact ⟨m0.content, [], by rw [mergeConsecutive]⟩
  | case3 m1 m2 rest heq ih =>
    intro m l' h
    injection h with h1 h2
    subst h1
    obtain ⟨c, r, hc⟩ := ih _ _ rfl
    refine ⟨c, r, ?_⟩
    rw [mergeConsecutive, if_pos heq]
    exact hc
  | case4 m1 m2 rest hne ih =>
    intro m l' h
    injection h with h1 h2
    subst h1
    refine ⟨m1.content, mergeConsecutive (m2 :: rest), ?_⟩
    rw [mergeConsecutive, if_neg hne]

theorem mergeConsecutive_chain (l : List Message) :
    List.Chain' (fun a b => a.role ≠ b.role) (mergeConsecutive l) := by
  induction l using mergeConsecutive.induct with
  | case1 => rw [mergeConsecutive]; exact List.chain'_nil
  | case2 m => rw [mergeConsecutive]; exact List.chain'_singleton m
  | case3 m1 m2 rest heq ih =>
    rw [mergeConsecutive, if_pos heq]
    exact ih
  | case4 m1 m2 rest hne ih =>
    rw [mergeConsecutive, if_neg hne]
    obtain ⟨c, r, hc⟩ := mergeConsecutive_head (m2 :: rest) m2 rest rfl
    rw [List.chain'_cons']
    refine ⟨?_, ih⟩
    intro y hy
    rw [hc] at hy
    simp at hy
    subst hy
    simpa using hne

theorem mergeConsecutive_roles (P : String → Prop) (l : List Message)
    (h : ∀ m ∈ l, P m.role) : ∀ m ∈ mergeConsecutive l, P m.role := by
  induction l using mergeConsecutive.induct with
  | case1 => intro m hm; rw [mergeConsecutive] at hm; cases hm
  | case2 m0 => intro m hm; rw [mergeConsecutive] at hm; simpa using h m hm
  | case3 m1 m2 rest heq ih =>
    intro m hm
    rw [mergeConsecutive, if_pos heq] at hm
    refine ih ?_ m hm
    intro y hy
    rcases List.mem_cons.mp hy with hy | hy
    · subst hy; exact h m1 (by simp)
    · exact h y (by simp [hy])
  | case4 m1 m2 rest hne ih =>
    intro m hm
    rw [mergeConsecutive, if_neg hne] at hm
    rcases List.mem_cons.mp hm with hm | hm
    · subst hm; exact h m (by simp)
    · refine ih ?_ m hm
      intro y hy
      exact h y (by simp [List.mem_cons.mp hy])

theorem ensureUserFirst_roles (P : String → Prop) (l : List Message)
    (h : ∀ m ∈ l, P m.role) (hu : P "user") :
    ∀ m ∈ ensureUserFirst l, P m.role := by
  cases l with
  | nil => intro m hm; cases hm
  | cons x rest =>
    intro m hm
    rw [ensureUserFirst] at hm
    by_cases ha : x.role = "assistant"
    · rw [if_pos ha] at hm
      rcases List.mem_cons.mp hm with hm | hm
      · subst hm; exact hu
      · exact h m hm
    · rw [if_neg ha] at hm
      exact h m hm

theorem ensureUserFirst_head (l : List Message)
    (h : ∀ m ∈ l, m.role = "user" ∨ m.role = "assistant") :
    ∀ m l', ensureUserFirst l = m :: l' → m.role = "user" := by
  cases l with
  | nil => intro m l' he; cases he
  | cons x rest =>
    intro m l' he
    rw [ensureUserFirst] at he
    by_cases ha : x.role = "assistant"
    · rw [if_pos ha] at he
      injection he with h1 _
      rw [← h1]
    · rw [if_neg ha] at he
      injection he with h1 _
      subst h1
      rcases h x (by simp) with hm | hm
      · exact hm
      · exact absurd hm ha

-- ---------------------------------------------------------------------------
-- Claim C8
-- ---------------------------------------------------------------------------

/-- Claim C8: the Claude provider's message conversion leaves only "user"
and "assistant" turns (every system message is hoisted into the separate
system field), the result never has two adjacent turns of the same role,
its first turn (if any) is from the user, and when the hoisted sequence
starts with an assistant turn the synthetic `user`/"Continue." turn is
prepended and survives as the head of the result. -/
theorem claude_convert_normalizes (messages : List Message) :
    (∀ m ∈ (convert_messages messages).2, m.role = "user" ∨ m.role = "assistant") ∧
    (∀ m ∈ (convert_messages messages).2, m.role ≠ "system") ∧
    List.Chain' (fun a b => a.role ≠ b.role) (convert_messages messages).2 ∧
    (∀ m ∈ (convert_messages messages).2.head?, m.role = "user") ∧
    (∀ c rest, (hoistSystem none messages).2 = ⟨"assistant", c⟩ :: rest →
      (convert_messages messages).2.head? = some ⟨"user", "Continue."⟩) := by
  have hconv : (convert_messages messages).2
      = mergeConsecutive (ensureUserFirst (hoistSystem none messages).2) := rfl
  have hroles0 := hoistSystem_roles messages none
  have hroles1 : ∀ m ∈ ensureUserFirst (hoistSystem none messages).2,
      m.role = "user" ∨ m.role = "assistant" :=
    ensureUserFirst_roles (fun r => r = "user" ∨ r = "assistant") _ hroles0 (Or.inl rfl)
  have hroles : ∀ m ∈ (convert_messages messages).2,
      m.role = "user" ∨ m.role = "assistant" := by
    rw [hconv]
    exact mergeConsecutive_roles (fun r => r = "user" ∨ r = "assistant") _ hroles1
  refine ⟨hroles, ?_, ?_, ?_, ?_⟩
  · intro m hm
    rcases hroles m hm with h | h <;> simp [h]
  · rw [hconv]
    exact mergeConsecutive_chain _
  · intro m hm
    rcases hl : ensureUserFirst (hoistSystem none messages).2 with _ | ⟨x, t⟩
    · rw [hconv, hl, mergeConsecutive] at hm
      cases hm
    · obtain ⟨c, r, hc⟩ := mergeConsecutive_head (x :: t) x t rfl
      rw [hconv, hl, hc] at hm
      simp at hm
      rw [← hm]
      exact ensureUserFirst_head _ hroles0 x t hl
  · intro c rest hh
    have he : ensureUserFirst (hoistSystem none messages).2
        = ⟨"user", "Continue."⟩ :: ⟨"assistant", c⟩ :: rest := by
      rw [hh, ensureUserFirst, if_pos rfl]
    have hne : (⟨"user", "Continue."⟩ : Message).role
        ≠ (⟨"assistant", c⟩ : Message).role := by simp
    rw [hconv, he, mergeConsecutive, if_neg hne]
    rfl

/-- Witness for C8: a conversation starting with an assistant turn gets the
synthetic "Continue." user turn prepended. -/
theorem claude_convert_normalizes_witness :
    (convert_messages [⟨"assistant", "hi"⟩]).2.head? = some ⟨"user", "Continue."⟩ :=
  (claude_convert_normalizes [⟨"assistant", "hi"⟩]).2.2.2.2 "hi" [] rfl

-- ---------------------------------------------------------------------------
-- CostTracker lemmas (helpers)
-- ---------------------------------------------------------------------------

theorem checkMonthRollover_budget (now : String) (st : TrackerState) :
    (checkMonthRollover now st).monthlyBudget = st.monthlyBudget := by
  unfold checkMonthRollover resetMonthly
  split <;> rfl

theorem checkMonthRollover_totalRequests (now : String) (st : TrackerState) :
    (checkMonthRollover now st).totalRequests = st.totalRequests := by
  unfold checkMonthRollover resetMonthly
  split <;> rfl

theorem checkMonthRollover_of_eq (now : String) (st : TrackerState)
    (h : now = st.currentMonth) : checkMonthRollover now st = st := by
  unfold checkMonthRollover
  rw [if_neg (not_not_intro h)]

theorem track_eq_openai (now model : String) (tIn tOut : Nat) (st : TrackerState) :
    track now "openai" model tIn tOut st =
      (mkSummary (costOf model tIn tOut)
        { checkMonthRollover now st with
            openaiCost := (checkMonthRollover now st).openaiCost + costOf model tIn tOut,
            openaiInput := (checkMonthRollover now st).openaiInput + tIn,
            openaiOutput := (checkMonthRollover now st).openaiOutput + tOut,
            totalRequests := (checkMonthRollover now st).totalRequests + 1 },
       { checkMonthRollover now st with
            openaiCost := (checkMonthRollover now st).openaiCost + costOf model tIn tOut,
            openaiInput := (checkMonthRollover now st).openaiInput + tIn,
            openaiOutput := (checkMonthRollover now st).openaiOutput + tOut,
            totalRequests := (checkMonthRollover now st).totalRequests + 1 }) := rfl

theorem track_eq_claude (now model : String) (tIn tOut : Nat) (st : TrackerState) :
    track now "claude" model tIn tOut st =
      (mkSummary (costOf model tIn tOut)
        { checkMonthRollover now st with
            claudeCost := (checkMonthRollover now st).claudeCost + costOf model tIn tOut,
            claudeInput := (checkMonthRollover now st).claudeInput + tIn,
            claudeOutput := (checkMonthRollover now st).claudeOutput + tOut,
            totalRequests := (checkMonthRollover now st).totalRequests + 1 },
       { checkMonthRollover now st with
            claudeCost := (checkMonthRollover now st).claudeCost + costOf model tIn tOut,
            claudeInput := (checkMonthRollover now st).claudeInput + tIn,
            claudeOutput := (checkMonthRollover now st).claudeOutput + tOut,
            totalRequests := (checkMonthRollover now st).totalRequests + 1 }) := rfl

theorem track_eq_other (now provider model : String) (tIn tOut : Nat)
    (st : TrackerState) (hp1 : provider ≠ "openai") (hp2 : provider ≠ "claude") :
    track now provider model tIn tOut st
      = (.error (.keyError provider), checkMonthRollover now st) := by
  simp only [track, if_neg hp1, if_neg hp2]

theorem mkSummary_ok (cost : ℚ) (st : TrackerState) (hb : st.monthlyBudget ≠ 0) :
    mkSummary cost st = .ok
      ⟨pyRound cost 6,
       pyRound (st.openaiCost + st.claudeCost) 4,
       pyRound (st.monthlyBudget - (st.openaiCost + st.claudeCost)) 4,
       pyRound ((st.openaiCost + st.claudeCost) / st.monthlyBudget * 100) 2⟩ := by
  simp only [mkSummary, pydiv]
  rw [if_neg hb]

theorem mkSummary_zero (cost : ℚ) (st : TrackerState) (hb : st.monthlyBudget = 0) :
    mkSummary cost st = .error .zeroDivisionError := by
  simp only [mkSummary, pydiv]
  rw [if_pos hb]

-- ---------------------------------------------------------------------------
-- Claim C4
-- ---------------------------------------------------------------------------

/-- Claim C4: a track() call made in a month different from the stored one
behaves exactly as the same call on the ledger with every per-provider
monthly cost/token counter reset tOut zero and the stored month updated; the
reset leaves the lifetime request counter untouched, and after the call the
stored month is the new month (only that month's data is retained). -/
theorem track_month_rollover (now provider model : String) (tIn tOut : Nat)
    (st : TrackerState) (h : now ≠ st.currentMonth) :
    track now provider model tIn tOut st
        = track now provider model tIn tOut (resetMonthly now st) ∧
    (resetMonthly now st).openaiCost = 0 ∧
    (resetMonthly now st).claudeCost = 0 ∧
    (resetMonthly now st).openaiInput = 0 ∧
    (resetMonthly now st).openaiOutput = 0 ∧
    (resetMonthly now st).claudeInput = 0 ∧
    (resetMonthly now st).claudeOutput = 0 ∧
    (resetMonthly now st).totalRequests = st.totalRequests ∧
    (resetMonthly now st).currentMonth = now ∧
    (track now provider model tIn tOut st).2.currentMonth = now := by
  have h1 : checkMonthRollover now st = resetMonthly now st := by
    unfold checkMonthRollover
    rw [if_pos h]
  have h2 : checkMonthRollover now (resetMonthly now st) = resetMonthly now st :=
    checkMonthRollover_of_eq now (resetMonthly now st) rfl
  have hmain : track now provider model tIn tOut st
      = track now provider model tIn tOut (resetMonthly now st) := by
    simp only [track, h1, h2]
  refine ⟨hmain, rfl, rfl, rfl, rfl, rfl, rfl, rfl, rfl, ?_⟩
  have hcm : ∀ st0 : TrackerState, (track now provider model tIn tOut st0).2.currentMonth
      = (checkMonthRollover now st0).currentMonth := by
    intro st0
    simp only [track]
    split_ifs <;> rfl
  rw [hmain, hcm, h2]
  rfl

def octTracker : TrackerState := initTracker 50 "2025-10"

/-- Witness for C4: rolling from 2025-10 into 2025-11 stores the new month. -/
theorem track_month_rollover_witness :
    (track "2025-11" "openai" "gpt-4o" 10 20 octTracker).2.currentMonth = "2025-11" :=
  (track_month_rollover "2025-11" "openai" "gpt-4o" 10 20 octTracker
    (by decide)).2.2.2.2.2.2.2.2.2

-- ---------------------------------------------------------------------------
-- Claim C5
-- ---------------------------------------------------------------------------

theorem pricingFor_gpt4omini : pricingFor "gpt-4o-mini" = ⟨0.15, 0.60⟩ := rfl

theorem costOf_gpt4omini : costOf "gpt-4o-mini" 1000000 1000000 = 0.75 := by
  unfold costOf
  rw [pricingFor_gpt4omini]
  norm_num

theorem pyRound_three_quarters : pyRound 0.75 6 = 0.75 := by
  unfold pyRound
  rw [show (0.75 : ℚ) * 10 ^ 6 = ((750000 : ℤ) : ℚ) from by norm_num, round_intCast]
  norm_num

/-- Claim C5: the tracked cost is inputTokens/1e6·pricing.input +
outputTokens/1e6·pricing.output with the default unit pricing 1.0/1.0 for
models missing from the table; in particular tracking a million input and a
million output tokens of gpt-4o-mini costs 0.75 and raises the monthly
total cost by exactly 0.75. -/
theorem track_cost_computation (st : TrackerState) (now : String)
    (hm : now = st.currentMonth) (hb : st.monthlyBudget ≠ 0) :
    (∀ model tIn tOut, PRICING.lookup model = none →
      costOf model tIn tOut = ((tIn : ℚ) + (tOut : ℚ)) / 1000000) ∧
    costOf "gpt-4o-mini" 1000000 1000000 = 0.75 ∧
    (∃ s, (track now "openai" "gpt-4o-mini" 1000000 1000000 st).1 = .ok s ∧
      s.cost_usd = 0.75) ∧
    (track now "openai" "gpt-4o-mini" 1000000 1000000 st).2.openaiCost
        + (track now "openai" "gpt-4o-mini" 1000000 1000000 st).2.claudeCost
      = st.openaiCost + st.claudeCost + 0.75 := by
  have hro := checkMonthRollover_of_eq now st hm
  refine ⟨?_, costOf_gpt4omini, ?_, ?_⟩
  · intro model tIn tOut hnone
    unfold costOf pricingFor
    rw [hnone]
    simp
    ring
  · rw [track_eq_openai]
    have hb2 : ({ checkMonthRollover now st with
        openaiCost := (checkMonthRollover now st).openaiCost
          + costOf "gpt-4o-mini" 1000000 1000000,
        openaiInput := (checkMonthRollover now st).openaiInput + 1000000,
        openaiOutput := (checkMonthRollover now st).openaiOutput + 1000000,
        totalRequests := (checkMonthRollover now st).totalRequests + 1 }
          : TrackerState).monthlyBudget ≠ 0 := by
      simpa [checkMonthRollover_budget] using hb
    rw [mkSummary_ok _ _ hb2]
    exact ⟨_, rfl, by rw [costOf_gpt4omini, pyRound_three_quarters]⟩
  · rw [track_eq_openai]
    simp only [hro]
    rw [costOf_gpt4omini]
    ring

def novTracker : TrackerState :=
  ⟨50, "2025-11", 1, 2, 100, 200, 300, 400, 7⟩

/-- Witness for C5 at a concrete ledger: the monthly total rises by 0.75. -/
theorem track_cost_computation_witness :
    (track "2025-11" "openai" "gpt-4o-mini" 1000000 1000000 novTracker).2.openaiCost
        + (track "2025-11" "openai" "gpt-4o-mini" 1000000 1000000 novTracker).2.claudeCost
      = novTracker.openaiCost + novTracker.claudeCost + 0.75 :=
  (track_cost_computation novTracker "2025-11" rfl (by decide)).2.2.2

-- ---------------------------------------------------------------------------
-- Claims C9 and C10: totality of the accounting arithmetic
-- ---------------------------------------------------------------------------

theorem get_stats_eq_ok (now : String) (st : TrackerState)
    (hb : st.monthlyBudget ≠ 0) :
    get_stats now st = (.ok
      { month := (checkMonthRollover now st).currentMonth,
        monthly_budget_usd := (checkMonthRollover now st).monthlyBudget,
        total_cost_usd := pyRound ((checkMonthRollover now st).openaiCost
          + (checkMonthRollover now st).claudeCost) 4,
        budget_remaining_usd := pyRound ((checkMonthRollover now st).monthlyBudget
          - ((checkMonthRollover now st).openaiCost
            + (checkMonthRollover now st).claudeCost)) 4,
        budget_utilization_pct := pyRound (((checkMonthRollover now st).openaiCost
          + (checkMonthRollover now st).claudeCost)
            / (checkMonthRollover now st).monthlyBudget * 100) 2,
        openaiStats := ⟨pyRound (checkMonthRollover now st).openaiCost 4,
          (checkMonthRollover now st).openaiInput,
          (checkMonthRollover now st).openaiOutput⟩,
        claudeStats := ⟨pyRound (checkMonthRollover now st).claudeCost 4,
          (checkMonthRollover now st).claudeInput,
          (checkMonthRollover now st).claudeOutput⟩,
        total_requests := (checkMonthRollover now st).totalRequests },
      checkMonthRollover now st) := by
  have hb1 : (checkMonthRollover now st).monthlyBudget ≠ 0 := by
    rw [checkMonthRollover_budget]; exact hb
  simp only [get_stats, pydiv, if_neg hb1]

-- A tracker constructed with a zero monthly budget.
def zeroBudgetTracker : TrackerState := initTracker 0 "2025-09"

/-- Claim C9 is false as universally stated: on a tracker whose monthly
budget is 0 (constructible, since the budget is an arbitrary float),
get_stats raises ZeroDivisionError when computing the utilization
percentage, so the arithmetic is not total on every call. -/
theorem get_stats_zero_budget_raises :
    (get_stats "2025-09" zeroBudgetTracker).1 = .error .zeroDivisionError := by
  have hb1 : (checkMonthRollover "2025-09" zeroBudgetTracker).monthlyBudget = 0 := rfl
  simp only [get_stats, pydiv, if_pos hb1]

/-- Claim C9 (amended): the router's getStats guards its percentage
divisions, reporting 0 for both percentages whenever the total request
count is 0, and is_budget_exceeded performs no division at all; the
budget-utilization percentage is defined on every track() call (for the
two valid providers) and every get_stats() call provided the monthly
budget is nonzero — with a zero budget those calls raise a division
error. -/
theorem stats_division_totality (now : String) (st : RouterState)
    (hb : st.tracker.monthlyBudget ≠ 0) :
    (∃ rs, (router_get_stats now st).1 = .ok rs) ∧
    (st.openaiCount + st.claudeCount = 0 →
      ∀ rs, (router_get_stats now st).1 = .ok rs →
        rs.openai_percentage = 0 ∧ rs.claude_percentage = 0) ∧
    (∃ cs, (get_stats now st.tracker).1 = .ok cs) ∧
    (∀ provider model tIn tOut, provider = "openai" ∨ provider = "claude" →
      ∃ s, (track now provider model tIn tOut st.tracker).1 = .ok s) ∧
    ((is_budget_exceeded now st.tracker).1
      = decide ((checkMonthRollover now st.tracker).monthlyBudget
          ≤ (checkMonthRollover now st.tracker).openaiCost
            + (checkMonthRollover now st.tracker).claudeCost)) := by
  have hg := get_stats_eq_ok now st.tracker hb
  refine ⟨?_, ?_, ?_, ?_, rfl⟩
  · simp only [router_get_stats, hg]
    exact ⟨_, rfl⟩
  · intro htot rs hrs
    simp only [router_get_stats, hg, Except.ok.injEq] at hrs
    rw [← hrs]
    simp only [htot]
    simp
  · exact ⟨_, by rw [hg]⟩
  · intro provider model tIn tOut hp
    rcases hp with rfl | rfl
    · rw [track_eq_openai]
      exact ⟨_, mkSummary_ok _ _ (by simpa [checkMonthRollover_budget] using hb)⟩
    · rw [track_eq_claude]
      exact ⟨_, mkSummary_ok _ _ (by simpa [checkMonthRollover_budget] using hb)⟩

/-- Witness for C9 (amended) on a fresh state with the default budget. -/
theorem stats_division_totality_witness :
    ∃ cs, (get_stats "2025-10" initialRouterState.tracker).1 = .ok cs :=
  (stats_division_totality "2025-10" initialRouterState (by decide)).2.2.1

/-- Claim C10 is false as universally stated: on a tracker whose monthly
budget is 0, track with the valid provider "openai" does not succeed —
the counters are updated but the summary raises ZeroDivisionError. -/
theorem track_zero_budget_raises :
    (track "2025-09" "openai" "gpt-4o" 5 5 zeroBudgetTracker).1
      = .error .zeroDivisionError := by
  have h := mkSummary_zero (costOf "gpt-4o" 5 5)
    { checkMonthRollover "2025-09" zeroBudgetTracker with
        openaiCost := (checkMonthRollover "2025-09" zeroBudgetTracker).openaiCost
          + costOf "gpt-4o" 5 5,
        openaiInput := (checkMonthRollover "2025-09" zeroBudgetTracker).openaiInput + 5,
        openaiOutput := (checkMonthRollover "2025-09" zeroBudgetTracker).openaiOutput + 5,
        totalRequests := (checkMonthRollover "2025-09" zeroBudgetTracker).totalRequests + 1 }
    rfl
  exact h

/-- Claim C10 (amended): the ledger has exactly the two provider keys: for
provider "openai" or "claude", track applies that provider's cost/token
increments and succeeds whenever the monthly budget is nonzero (for every
model string, known to the pricing table or not), while any other provider
string raises a key-lookup error, leaving the (possibly rolled-over)
ledger without any increment. -/
theorem track_provider_key_dichotomy (now provider model : String)
    (tIn tOut : Nat) (st : TrackerState) :
    (provider = "openai" →
      (track now provider model tIn tOut st).2.openaiCost
          = (checkMonthRollover now st).openaiCost + costOf model tIn tOut ∧
      (track now provider model tIn tOut st).2.openaiInput
          = (checkMonthRollover now st).openaiInput + tIn ∧
      (track now provider model tIn tOut st).2.openaiOutput
          = (checkMonthRollover now st).openaiOutput + tOut ∧
      (st.monthlyBudget ≠ 0 →
        ∃ s, (track now provider model tIn tOut st).1 = .ok s)) ∧
    (provider = "claude" →
      (track now provider model tIn tOut st).2.claudeCost
          = (checkMonthRollover now st).claudeCost + costOf model tIn tOut ∧
      (track now provider model tIn tOut st).2.claudeInput
          = (checkMonthRollover now st).claudeInput + tIn ∧
      (track now provider model tIn tOut st).2.claudeOutput
          = (checkMonthRollover now st).claudeOutput + tOut ∧
      (st.monthlyBudget ≠ 0 →
        ∃ s, (track now provider model tIn tOut st).1 = .ok s)) ∧
    (provider ≠ "openai" → provider ≠ "claude" →
      (track now provider model tIn tOut st).1 = .error (.keyError provider) ∧
      (track now provider model tIn tOut st).2 = checkMonthRollover now st) := by
  refine ⟨?_, ?_, ?_⟩
  · rintro rfl
    rw [track_eq_openai]
    exact ⟨rfl, rfl, rfl, fun hb =>
      ⟨_, mkSummary_ok _ _ (by simpa [checkMonthRollover_budget] using hb)⟩⟩
  · rintro rfl
    rw [track_eq_claude]
    exact ⟨rfl, rfl, rfl, fun hb =>
      ⟨_, mkSummary_ok _ _ (by simpa [checkMonthRollover_budget] using hb)⟩⟩
  · intro h1 h2
    rw [track_eq_other now provider model tIn tOut st h1 h2]
    exact ⟨rfl, rfl⟩

/-- Witness for C10 (amended): tracking an unknown model on provider
"openai" with the default budget succeeds. -/
theorem track_provider_key_dichotomy_witness :
    ∃ s, (track "2025-10" "openai" "mystery-model" 1 2 octTracker).1 = .ok s :=
  ((track_provider_key_dichotomy "2025-10" "openai" "mystery-model" 1 2
    octTracker).1 rfl).2.2.2 (by decide)

-- ---------------------------------------------------------------------------
-- Claim C3: accounting atomicity of route()
-- ---------------------------------------------------------------------------

def backendName : Backend → String
  | .openai => "openai"
  | .claude => "claude"

theorem generateOn_provider (env : Env) (b : Backend) (messages : List Message)
    (resp : ProviderResponse) (h : generateOn env b messages = .ok resp) :
    resp.provider = backendName b := by
  cases b
  · have h2 : openaiGenerate env messages = .ok resp := h
    unfold openaiGenerate at h2
    split at h2
    · simp at h2
    · split at h2
      · simp at h2
      · simp only [Except.ok.injEq] at h2
        subst h2
        rfl
  · have h2 : claudeGenerate env messages = .ok resp := h
    simp only [claudeGenerate] at h2
    split at h2
    · simp at h2
    · split at h2
      · simp at h2
      · simp only [Except.ok.injEq] at h2
        subst h2
        rfl

theorem track_snd_totalRequests_good (now provider model : String)
    (tIn tOut : Nat) (st : TrackerState)
    (hp : provider = "openai" ∨ provider = "claude") :
    (track now provider model tIn tOut st).2.totalRequests = st.totalRequests + 1 := by
  rcases hp with rfl | rfl
  · rw [track_eq_openai]
    simp [checkMonthRollover_totalRequests]
  · rw [track_eq_claude]
    simp [checkMonthRollover_totalRequests]

theorem track_fst_ok_good (now provider model : String) (tIn tOut : Nat)
    (st : TrackerState) (hp : provider = "openai" ∨ provider = "claude")
    (hb : st.monthlyBudget ≠ 0) :
    ∃ s, (track now provider model tIn tOut st).1 = .ok s := by
  rcases hp with rfl | rfl
  · rw [track_eq_openai]
    exact ⟨_, mkSummary_ok _ _ (by simpa [checkMonthRollover_budget] using hb)⟩
  · rw [track_eq_claude]
    exact ⟨_, mkSummary_ok _ _ (by simpa [checkMonthRollover_budget] using hb)⟩

theorem afterGenerate_spec (env : Env) (b : Backend) (resp : ProviderResponse)
    (st : RouterState)
    (hp : resp.provider = "openai" ∨ resp.provider = "claude") :
    (afterGenerate env b resp st).2
        = { bumpCount b st with
            tracker := (track env.month resp.provider resp.model
              resp.usage.prompt_tokens resp.usage.completion_tokens st.tracker).2 } ∧
    (afterGenerate env b resp st).2.tracker.totalRequests
        = st.tracker.totalRequests + 1 ∧
    (st.tracker.monthlyBudget ≠ 0 → (afterGenerate env b resp st).1 = .ok resp) := by
  have hbt : (bumpCount b st).tracker = st.tracker := by cases b <;> rfl
  rcases htr : track env.month resp.provider resp.model resp.usage.prompt_tokens
      resp.usage.completion_tokens st.tracker with ⟨res, tst⟩
  have h2 : (afterGenerate env b resp st).2 = { bumpCount b st with tracker := tst } := by
    simp only [afterGenerate, hbt, htr]
    cases res <;> rfl
  refine ⟨?_, ?_, ?_⟩
  · rw [h2]
  · rw [h2]
    have ht := track_snd_totalRequests_good env.month resp.provider resp.model
      resp.usage.prompt_tokens resp.usage.completion_tokens st.tracker hp
    rw [htr] at ht
    simpa using ht
  · intro hb
    obtain ⟨s, hs⟩ := track_fst_ok_good env.month resp.provider resp.model
      resp.usage.prompt_tokens resp.usage.completion_tokens st.tracker hp hb
    rw [htr] at hs
    simp only [] at hs
    simp only [afterGenerate, hbt, htr, hs]

theorem afterGenerate_counters (env : Env) (b : Backend) (resp : ProviderResponse)
    (st : RouterState)
    (hp : resp.provider = "openai" ∨ resp.provider = "claude") :
    (afterGenerate env b resp st).2.openaiCount
        + (afterGenerate env b resp st).2.claudeCount
      = st.openaiCount + st.claudeCount + 1 := by
  rw [(afterGenerate_spec env b resp st hp).1]
  cases b <;> simp [bumpCount] <;> omega

/-- Claim C3 (amended): per route() call the lifetime-counter increment and
the CostTracker.track() application happen both or neither — the post
state either carries exactly one more lifetime request on both ledgers or
is unchanged; and in the fallback scenario (primary generate raises,
second backend available, its generate succeeds, nonzero monthly budget)
route() returns the second backend's response, bumps only the second
backend's lifetime counter, and the tracker equals track() applied with
the second backend's response to the pre-call tracker — the primary's
failure leaves no accounting trace. -/
theorem route_accounting_atomicity (env : Env) (threshold : ℚ)
    (messages : List Message) (st : RouterState) :
    (((route env threshold messages st).2.openaiCount
          + (route env threshold messages st).2.claudeCount
        = st.openaiCount + st.claudeCount + 1 ∧
      (route env threshold messages st).2.tracker.totalRequests
        = st.tracker.totalRequests + 1) ∨
      (route env threshold messages st).2 = st) ∧
    (∀ p f e resp,
      selectBackend (is_complex threshold messages) env.openaiAvailable
          env.claudeAvailable = .primary p (some f) →
      generateOn env p messages = .error e →
      generateOn env f messages = .ok resp →
      st.tracker.monthlyBudget ≠ 0 →
      (route env threshold messages st).1 = .ok resp ∧
      (route env threshold messages st).2.openaiCount
        = (bumpCount f st).openaiCount ∧
      (route env threshold messages st).2.claudeCount
        = (bumpCount f st).claudeCount ∧
      (route env threshold messages st).2.tracker
        = (track env.month resp.provider resp.model resp.usage.prompt_tokens
            resp.usage.completion_tokens st.tracker).2) := by
  constructor
  · rcases hsel : selectBackend (is_complex threshold messages)
        env.openaiAvailable env.claudeAvailable with ⟨p, fb⟩ | _
    · rcases hg : generateOn env p messages with e | resp
      · rcases fb with _ | f
        · rw [route_eq_primary_err_no_fb env threshold messages st p e hsel hg]
          exact Or.inr rfl
        · rcases hg2 : generateOn env f messages with e2 | resp2
          · rw [route_eq_fallback_err env threshold messages st p f e e2 hsel hg hg2]
            exact Or.inr rfl
          · rw [route_eq_fallback_ok env threshold messages st p f e resp2 hsel hg hg2]
            have hp2 : resp2.provider = "openai" ∨ resp2.provider = "claude" := by
              have := generateOn_provider env f messages resp2 hg2
              cases f
              · exact Or.inl this
              · exact Or.inr this
            exact Or.inl ⟨afterGenerate_counters env f resp2 st hp2,
              (afterGenerate_spec env f resp2 st hp2).2.1⟩
      · rw [route_eq_primary_ok env threshold messages st p fb resp hsel hg]
        have hp2 : resp.provider = "openai" ∨ resp.provider = "claude" := by
          have := generateOn_provider env p messages resp hg
          cases p
          · exact Or.inl this
          · exact Or.inr this
        exact Or.inl ⟨afterGenerate_counters env p resp st hp2,
          (afterGenerate_spec env p resp st hp2).2.1⟩
    · rw [route_eq_of_sel_none env threshold messages st hsel]
      exact Or.inr rfl
  · intro p f e resp hsel hg hg2 hb
    have hp2 : resp.provider = "openai" ∨ resp.provider = "claude" := by
      have := generateOn_provider env f messages resp hg2
      cases f
      · exact Or.inl this
      · exact Or.inr this
    rw [route_eq_fallback_ok env threshold messages st p f e resp hsel hg hg2]
    obtain ⟨h2, htot, hok⟩ := afterGenerate_spec env f resp st hp2
    refine ⟨hok hb, ?_, ?_, ?_⟩ <;> rw [h2]

theorem hi_not_complex : is_complex 0.5 [⟨"user", "hi"⟩] = false := by
  have hs : score [⟨"user", "hi"⟩] = 1 / 500 := by
    rw [score_eq_score_of]
    rw [show countWords (joinContents [⟨"user", "hi"⟩]).toList = 1 from by decide]
    rw [show countMatches (joinContents [⟨"user", "hi"⟩]).toList = 0 from by decide]
    unfold score_of length_score pattern_score
    rw [min_eq_left (by norm_num), min_eq_left (by norm_num)]
    norm_num
  unfold is_complex
  rw [hs, decide_eq_false_iff_not]
  norm_num

-- A fallback scenario: OpenAI (the primary for this simple query) fails,
-- Claude answers.
def fbEnv : Env :=
  { openaiAvailable := true, claudeAvailable := true,
    openaiApi := fun _ => .error "boom",
    claudeApi := fun _ _ => .ok ⟨"id1", "claude-sonnet-4-20250514", "hello", 3, 4, 7⟩,
    claudeModel := "claude-sonnet-4-20250514", uuidHex := "cafebabe",
    month := "2025-10" }

def fbResp : ProviderResponse :=
  ⟨"chatcmpl-cafebabe", "claude-sonnet-4-20250514", "hello", "claude", ⟨3, 4, 7⟩⟩

-- A router state over a zero-budget tracker, reachable by constructing
-- the tracker with monthly_budget_usd = 0.0.
def zeroBudgetRouterState : RouterState := ⟨0, 0, initTracker 0 "2025-10"⟩

/-- Claim C3 is false as universally stated: at the constructible
zero-budget router state, in the very fallback scenario the claim
describes (the primary's generate raises, the second backend is available
and answers), route() does not return the second backend's response — the
fallback's counter and the lifetime request counter are updated, but
track() then raises ZeroDivisionError building its summary and route()
propagates that tracking error. -/
theorem route_fallback_zero_budget_raises :
    (route fbEnv 0.5 [⟨"user", "hi"⟩] zeroBudgetRouterState).1
        = .error (.trackingError .zeroDivisionError) ∧
    (route fbEnv 0.5 [⟨"user", "hi"⟩] zeroBudgetRouterState).2.claudeCount = 1 ∧
    (route fbEnv 0.5 [⟨"user", "hi"⟩] zeroBudgetRouterState).2.tracker.totalRequests
        = 1 := by
  rw [route_eq_fallback_ok fbEnv 0.5 [⟨"user", "hi"⟩] zeroBudgetRouterState .openai
    .claude "boom" fbResp (by rw [hi_not_complex]; rfl) rfl rfl]
  exact ⟨rfl, rfl, rfl⟩

/-- Witness for C3 (amended): in the concrete fallback scenario with the
default budget, route() returns the fallback backend's response. -/
theorem route_accounting_atomicity_witness :
    (route fbEnv 0.5 [⟨"user", "hi"⟩] initialRouterState).1 = .ok fbResp :=
  ((route_accounting_atomicity fbEnv 0.5 [⟨"user", "hi"⟩] initialRouterState).2
    .openai .claude "boom" fbResp
    (by rw [hi_not_complex]; rfl)
    rfl rfl (by decide)).1

end OpenClawLite
